import Mathlib

/-!
Shallow embedding of the FastAPI backend in `src/main.py`.

The program exposes a products API and a mock checkout over a document
store (MongoDB via a `database` helper module).  We model:

  * raw JSON-ish request bodies (`JVal`, association lists of fields);
  * the pydantic validation of `ProductIn` and `CheckoutIn`
    (pydantic ignores undeclared extra fields by default, required
    fields fail when absent, `Field` bounds `ge` and `le` are checks
    that reject, not clamps);
  * BSON `ObjectId` parsing of a string: it succeeds exactly on
    24-character hexadecimal strings, and the canonical string form of
    a stored identifier is lowercase hexadecimal;
  * the document store as explicit state (`DbState`): the lists of
    documents in the `product` and `order` collections, plus the next
    identifier the store would assign and its clock;
  * each route handler as a pure function from (raw body, store state)
    to (response, new store state, list of store accesses performed).

The `database` module itself is not among the sources; where its
behaviour decides a claim the definition is modelled from the spec and
says so in its doc comment.
-/

namespace Backend

/-- JSON-like values used as raw request bodies before validation. -/
inductive JVal where
  | str (s : String)
  | num (q : Rat)
  | bool (b : Bool)
  | arr (elems : List JVal)
  | null

/-- Field lookup in a raw JSON object (first occurrence wins). -/
def lookupField : List (String × JVal) → String → Option JVal
  | [], _ => none
  | (k, v) :: rest, name => if k = name then some v else lookupField rest name

/-- Hexadecimal digit, either case, as accepted by `bytes.fromhex`. -/
def isHexChar (c : Char) : Bool :=
  c.isDigit || (('a' ≤ c) && (c ≤ 'f')) || (('A' ≤ c) && (c ≤ 'F'))

/-- `ObjectId(s)` on a string succeeds exactly when `s` is a 24-character
hexadecimal string (bson). -/
def isValidOidString (s : String) : Bool :=
  s.data.length == 24 && s.data.all isHexChar

/-- Canonical string form of an ObjectId: lowercase hexadecimal.  Two hex
strings denote the same ObjectId exactly when they agree up to case, and
stored identifiers are kept in canonical form. -/
def oidNorm (s : String) : String := ⟨s.data.map Char.toLower⟩

/-- The first `n` characters of a string: the Python slice `s[:n]`. -/
def strTake (s : String) (n : Nat) : String := ⟨s.data.take n⟩

/-- A document of the `product` collection as persisted by the store:
the payload fields plus the store-internal `_id`, `created_at` and
`updated_at` fields.  Identifiers are held in their canonical string
form. -/
structure ProductDoc where
  _id : Option String
  title : String
  description : Option String
  price : Rat
  category : Option String
  in_stock : Bool
  image_urls : List String
  video_url : Option String
  created_at : Option String
  updated_at : Option String
deriving DecidableEq

/-- A document of the `order` collection, as built by `checkout`. -/
structure OrderDoc where
  product_id : String
  quantity : Int
  status : String
deriving DecidableEq

/-- The state of the document store: the two collections the program
uses, the identifier the store would assign to the next inserted
document of each collection, and the store clock used for timestamps. -/
structure DbState where
  products : List ProductDoc
  orders : List OrderDoc
  nextProductId : String
  nextOrderId : String
  nowTs : String
deriving DecidableEq

/-- Validated `ProductIn` payload (pydantic model, lines 75-82). -/
structure ProductIn where
  title : String
  description : Option String
  price : Rat
  category : Option String
  in_stock : Bool
  image_urls : List String
  video_url : Option String
deriving DecidableEq

/-- `ProductOut` (line 84): the product payload plus the string `id`. -/
structure ProductOut where
  id : String
  title : String
  description : Option String
  price : Rat
  category : Option String
  in_stock : Bool
  image_urls : List String
  video_url : Option String
deriving DecidableEq

/-- Validated `CheckoutIn` payload (lines 111-113). -/
structure CheckoutIn where
  product_id : String
  quantity : Int
deriving DecidableEq

/-- `CheckoutOut` (lines 115-118). -/
structure CheckoutOut where
  status : String
  message : String
  order_id : String
deriving DecidableEq

/-- Well-formedness of a pydantic `HttpUrl` string, modelled as having an
http or https scheme. -/
def isHttpUrl (s : String) : Bool :=
  s.data.take 7 == "http://".data || s.data.take 8 == "https://".data

/-- Required string field: present and a string, else a validation
error. -/
def vReqStr (raw : List (String × JVal)) (name : String) : Except String String :=
  match lookupField raw name with
  | some (.str s) => .ok s
  | some _ => .error (name ++ ": Input should be a valid string")
  | none => .error (name ++ ": Field required")

/-- Optional string field defaulting to `None`. -/
def vOptStr (raw : List (String × JVal)) (name : String) : Except String (Option String) :=
  match lookupField raw name with
  | none => .ok none
  | some .null => .ok none
  | some (.str s) => .ok (some s)
  | some _ => .error (name ++ ": Input should be a valid string")

/-- The `price` field: required, numeric, and `ge=0` (line 78) — a
negative value is a validation error, not clamped. -/
def vPrice (raw : List (String × JVal)) : Except String Rat :=
  match lookupField raw "price" with
  | some (.num q) =>
      if q < 0 then .error "price: Input should be greater than or equal to 0"
      else .ok q
  | some _ => .error "price: Input should be a valid number"
  | none => .error "price: Field required"

/-- The `in_stock` field: boolean, defaulting to `true` (line 80). -/
def vInStock (raw : List (String × JVal)) : Except String Bool :=
  match lookupField raw "in_stock" with
  | none => .ok true
  | some (.bool b) => .ok b
  | some _ => .error "in_stock: Input should be a valid boolean"

/-- Elements of `image_urls`: each must be a well-formed URL string. -/
def vUrls : List JVal → Except String (List String)
  | [] => .ok []
  | .str s :: rest =>
      if isHttpUrl s then (vUrls rest).map (fun l => s :: l)
      else .error "image_urls: Input should be a valid URL"
  | _ :: _ => .error "image_urls: Input should be a valid URL string"

/-- The `image_urls` field: list of URLs, defaulting to `[]` (line 81). -/
def vUrlList (raw : List (String × JVal)) : Except String (List String) :=
  match lookupField raw "image_urls" with
  | none => .ok []
  | some (.arr l) => vUrls l
  | some _ => .error "image_urls: Input should be a valid list"

/-- The `video_url` field: optional URL (line 82). -/
def vVideoUrl (raw : List (String × JVal)) : Except String (Option String) :=
  match lookupField raw "video_url" with
  | none => .ok none
  | some .null => .ok none
  | some (.str s) =>
      if isHttpUrl s then .ok (some s)
      else .error "video_url: Input should be a valid URL"
  | some _ => .error "video_url: Input should be a valid URL string"

/-- Pydantic validation of a raw body against `ProductIn` (lines 75-82).
Fields are checked in declaration order; keys not named by the model are
ignored (pydantic default `extra` behaviour: no `extra` configuration
appears in the source). -/
def validateProductIn (raw : List (String × JVal)) : Except String ProductIn :=
  match vReqStr raw "title" with
  | .error e => .error e
  | .ok title =>
  match vOptStr raw "description" with
  | .error e => .error e
  | .ok description =>
  match vPrice raw with
  | .error e => .error e
  | .ok price =>
  match vOptStr raw "category" with
  | .error e => .error e
  | .ok category =>
  match vInStock raw with
  | .error e => .error e
  | .ok in_stock =>
  match vUrlList raw with
  | .error e => .error e
  | .ok image_urls =>
  match vVideoUrl raw with
  | .error e => .error e
  | .ok video_url =>
    .ok ⟨title, description, price, category, in_stock, image_urls, video_url⟩

/-- The `quantity` field of `CheckoutIn` (line 113): integer with
default `1`, `ge=1`, `le=10`; out-of-range values are rejected. -/
def vQuantity (raw : List (String × JVal)) : Except String Int :=
  match lookupField raw "quantity" with
  | none => .ok 1
  | some (.num q) =>
      if q.den = 1 then
        if 1 ≤ q.num ∧ q.num ≤ 10 then .ok q.num
        else .error "quantity: Input should be between 1 and 10"
      else .error "quantity: Input should be a valid integer"
  | some _ => .error "quantity: Input should be a valid integer"

/-- Pydantic validation of a raw body against `CheckoutIn` (lines
111-113): `product_id` is a required plain string — the model states no
further constraint on it — and `quantity` defaults to 1. -/
def validateCheckoutIn (raw : List (String × JVal)) : Except String CheckoutIn :=
  match vReqStr raw "product_id" with
  | .error e => .error e
  | .ok pid =>
  match vQuantity raw with
  | .error e => .error e
  | .ok q => .ok ⟨pid, q⟩

/-- A store access performed by a handler. -/
inductive StoreOp where
  | findOne
  | insertOne
deriving DecidableEq

/-- Response of the checkout endpoint. -/
inductive CheckoutResp where
  | success (out : CheckoutOut)
  | httpError (code : Nat) (detail : String)
  | validationError (detail : String)
deriving DecidableEq

/-- The `checkout` handler body (lines 121-148), after `CheckoutIn`
validation.  `db = none` models `database.db is None`.  Returns the
response, the resulting store state, and the store accesses performed
in order. -/
def checkout (db : Option DbState) (p : CheckoutIn) :
    CheckoutResp × Option DbState × List StoreOp :=
  match db with
  | none => (.httpError 500 "Database not available", none, [])
  | some st =>
    if isValidOidString p.product_id then
      match st.products.find? (fun d => d._id == some (oidNorm p.product_id)) with
      | none => (.httpError 404 "Product not found", some st, [.findOne])
      | some _ =>
          (.success ⟨"success", "Payment processed (demo)", st.nextOrderId⟩,
           some { st with orders :=
                    st.orders ++ [⟨p.product_id, p.quantity, "paid"⟩] },
           [.findOne, .insertOne])
    else
      (.httpError 400 "Invalid product_id", some st, [])

/-- The `POST /api/checkout` endpoint: framework validation of the raw
body, then the handler.  A validation failure never reaches the
handler, so the store is untouched and no store access happens. -/
def checkoutEndpoint (raw : List (String × JVal)) (db : Option DbState) :
    CheckoutResp × Option DbState × List StoreOp :=
  match validateCheckoutIn raw with
  | .error e => (.validationError e, db, [])
  | .ok p => checkout db p

/-- Modelled from the spec: `get_documents` lives in the `database`
module, which is not among the sources.  Per the spec it fetches up to
`limit` documents from the collection with no filter, preserving the
order the store returns them in. -/
def get_documents (docs : List ProductDoc) (limit : Nat) : List ProductDoc :=
  docs.take limit

/-- Mapping of a stored document to `ProductOut` (lines 93-100):
the string form of `_id` when present and truthy, else the empty
string; the internal fields `_id`, `created_at`, `updated_at` are
dropped, the remaining payload fields pass through. -/
def productOutOfDoc (d : ProductDoc) : ProductOut :=
  { id := match d._id with
          | some s => if s = "" then "" else s
          | none => ""
    title := d.title
    description := d.description
    price := d.price
    category := d.category
    in_stock := d.in_stock
    image_urls := d.image_urls
    video_url := d.video_url }

/-- The `GET /api/products` handler (lines 88-101). -/
def list_products (st : DbState) : List ProductOut :=
  (get_documents st.products 100).map productOutOfDoc

/-- Modelled from the spec: `create_document` (in the absent `database`
module) persists the payload into the collection, the store assigning
the identity and the implicit timestamps, and returns the new
identifier. -/
def create_document (st : DbState) (p : ProductIn) : DbState × String :=
  let doc : ProductDoc :=
    { _id := some st.nextProductId
      title := p.title
      description := p.description
      price := p.price
      category := p.category
      in_stock := p.in_stock
      image_urls := p.image_urls
      video_url := p.video_url
      created_at := some st.nowTs
      updated_at := some st.nowTs }
  ({ st with products := st.products ++ [doc] }, st.nextProductId)

/-- Response of the product-creation endpoint. -/
inductive ProductResp where
  | created (id : String)
  | validationError (detail : String)
deriving DecidableEq

/-- The `POST /api/products` endpoint (lines 104-108): validation, and
on success one `create_document` call; on validation failure the
handler never runs and the store is untouched. -/
def create_product (raw : List (String × JVal)) (st : DbState) :
    ProductResp × DbState :=
  match validateProductIn raw with
  | .error e => (.validationError e, st)
  | .ok p =>
      let r := create_document st p
      (.created r.2, r.1)

/-- A reachable `db` object as seen by diagnostics: its optional `name`
attribute and the outcome of `list_collection_names()`. -/
structure DiagDb where
  name : Option String
  listCollectionsResult : Except String (List String)

/-- State of the diagnostics database probe: what `from database import
db` does. -/
inductive DbImport where
  | importError
  | otherError (msg : String)
  | imported (db : Option DiagDb)

/-- The diagnostics response body: always these six fields (lines
32-39). -/
structure DiagResponse where
  backend : String
  database : String
  database_url : Option String
  database_name : Option String
  connection_status : String
  collections : List String
deriving DecidableEq

/-- Python truthiness of `os.getenv(name)`: set and non-empty. -/
def envTruthy : Option String → Bool
  | some s => !(s == "")
  | none => false

/-- The `GET /test` diagnostics handler (lines 29-71).  A total
function: every failure mode of the probe is a constructor of
`DbImport`, so the handler never raises whatever the store state.  The
final two assignments (lines 68-69) overwrite `database_url` and
`database_name` with presence-only reports of the two environment
variables. -/
def test_database (imp : DbImport) (envUrl envName : Option String) : DiagResponse :=
  let base : DiagResponse :=
    { backend := "✅ Running"
      database := "❌ Not Available"
      database_url := none
      database_name := none
      connection_status := "Not Connected"
      collections := [] }
  let r :=
    match imp with
    | .importError =>
        { base with database := "❌ Database module not found (run enable-database first)" }
    | .otherError e =>
        { base with database := "❌ Error: " ++ strTake e 50 }
    | .imported none =>
        { base with database := "⚠️  Available but not initialized" }
    | .imported (some db) =>
        let r1 := { base with
                    database := "✅ Available"
                    database_url := some "✅ Configured"
                    database_name := some (db.name.getD "✅ Connected")
                    connection_status := "Connected" }
        match db.listCollectionsResult with
        | .ok cols =>
            { r1 with collections := cols.take 10
                      database := "✅ Connected & Working" }
        | .error e =>
            { r1 with database := "⚠️  Connected but Error: " ++ strTake e 50 }
  { r with database_url := some (if envTruthy envUrl then "✅ Set" else "❌ Not Set")
           database_name := some (if envTruthy envName then "✅ Set" else "❌ Not Set") }

/-- A syntactically valid ObjectId string used by concrete witnesses. -/
def oidA : String := "0123456789abcdef01234567"

/-- A second valid ObjectId string, for store-assigned order ids. -/
def oidB : String := "aaaaaaaaaaaaaaaaaaaaaaaa"

/-- A sample stored product document with identifier `oidA`. -/
def sampleDoc : ProductDoc :=
  { _id := some oidA
    title := "Chair"
    description := none
    price := 5
    category := none
    in_stock := true
    image_urls := []
    video_url := none
    created_at := some "t0"
    updated_at := some "t0" }

/-- A sample store holding one product and no orders. -/
def sampleStore : DbState :=
  { products := [sampleDoc]
    orders := []
    nextProductId := oidB
    nextOrderId := oidB
    nowTs := "t1" }

/-- A store with no documents at all. -/
def emptyStore : DbState :=
  { products := []
    orders := []
    nextProductId := oidB
    nextOrderId := oidB
    nowTs := "t1" }

/-! ## Helper lemmas -/

/-- Prepending a field with a different key does not change a lookup. -/
theorem lookupField_cons_ne (k : String) (v : JVal) (raw : List (String × JVal))
    (n : String) (h : k ≠ n) : lookupField ((k, v) :: raw) n = lookupField raw n := by
  simp [lookupField, h]

/-- A syntactically valid ObjectId string has 24 characters, hence is
not empty. -/
theorem valid_oid_ne_empty (s : String) (h : isValidOidString s = true) : s ≠ "" := by
  intro hs
  rw [hs] at h
  exact absurd h (by decide)

/-! ## Claims -/

/-- C1: for every checkout request whose `product_id` references an
existing product document and whose quantity is in `[1, 10]`, `checkout`
inserts exactly one new order document carrying the request's
`product_id` string, its quantity, and status `"paid"`, and returns a
success response with a non-empty string `order_id`.  (The store-side
order identifier, being a valid ObjectId, is 24 characters long.) -/
theorem checkout_valid_request_creates_one_paid_order
    (st : DbState) (p : CheckoutIn)
    (hq1 : 1 ≤ p.quantity) (hq2 : p.quantity ≤ 10)
    (hpid : isValidOidString p.product_id = true)
    (hoid : isValidOidString st.nextOrderId = true)
    (hfound : (st.products.find? (fun d => d._id == some (oidNorm p.product_id))).isSome = true) :
    checkout (some st) p =
      (CheckoutResp.success ⟨"success", "Payment processed (demo)", st.nextOrderId⟩,
       some { st with orders := st.orders ++ [⟨p.product_id, p.quantity, "paid"⟩] },
       [StoreOp.findOne, StoreOp.insertOne]) ∧
    st.nextOrderId ≠ "" := by
  obtain ⟨d, hd⟩ := Option.isSome_iff_exists.mp hfound
  refine ⟨?_, valid_oid_ne_empty _ hoid⟩
  simp [checkout, hpid, hd]

/-- C1 witness: a concrete store with one product, checkout at
quantity 3. -/
theorem checkout_valid_request_creates_one_paid_order_witness :
    checkout (some sampleStore) ⟨oidA, 3⟩ =
      (CheckoutResp.success ⟨"success", "Payment processed (demo)", sampleStore.nextOrderId⟩,
       some { sampleStore with orders := sampleStore.orders ++ [⟨oidA, 3, "paid"⟩] },
       [StoreOp.findOne, StoreOp.insertOne]) ∧
    sampleStore.nextOrderId ≠ "" :=
  checkout_valid_request_creates_one_paid_order sampleStore ⟨oidA, 3⟩
    (by decide) (by decide) (by decide) (by decide) (by decide)

/-- C2: for every checkout request whose `product_id` is not a
syntactically valid store identifier, `checkout` answers 400 before any
store access happens (the access trace is empty) and leaves the store,
in particular the order collection, unchanged. -/
theorem checkout_invalid_product_id_bad_request
    (st : DbState) (p : CheckoutIn)
    (h : isValidOidString p.product_id = false) :
    checkout (some st) p = (CheckoutResp.httpError 400 "Invalid product_id", some st, []) := by
  simp [checkout, h]

/-- C2 witness: the concrete malformed identifier of the spec. -/
theorem checkout_invalid_product_id_bad_request_witness :
    checkout (some sampleStore) ⟨"not-an-id", 3⟩ =
      (CheckoutResp.httpError 400 "Invalid product_id", some sampleStore, []) :=
  checkout_invalid_product_id_bad_request sampleStore ⟨"not-an-id", 3⟩ (by decide)

/-- C3 counterexample: a product body with the undeclared extra field
`color` passes `ProductIn` validation — extra fields are ignored, not
rejected, since the model declares no restrictive `extra`
configuration. -/
theorem productIn_extra_field_accepted :
    validateProductIn
        [("title", JVal.str "Chair"), ("price", JVal.num 5), ("color", JVal.str "red")] =
      Except.ok ⟨"Chair", none, 5, none, true, [], none⟩ := rfl

/-- C3 as amended: `ProductIn` validation ignores any field whose key is
not among the seven declared ones — adding such a field changes nothing
about the validation outcome. -/
theorem productIn_extra_fields_ignored
    (raw : List (String × JVal)) (k : String) (v : JVal)
    (hk : k ∉ (["title", "description", "price", "category",
                "in_stock", "image_urls", "video_url"] : List String)) :
    validateProductIn ((k, v) :: raw) = validateProductIn raw := by
  simp only [List.mem_cons, List.not_mem_nil, or_false, not_or] at hk
  obtain ⟨h1, h2, h3, h4, h5, h6, h7⟩ := hk
  simp only [validateProductIn, vReqStr, vOptStr, vPrice, vInStock, vUrlList, vVideoUrl,
    lookupField_cons_ne _ _ raw _ h1, lookupField_cons_ne _ _ raw _ h2,
    lookupField_cons_ne _ _ raw _ h3, lookupField_cons_ne _ _ raw _ h4,
    lookupField_cons_ne _ _ raw _ h5, lookupField_cons_ne _ _ raw _ h6,
    lookupField_cons_ne _ _ raw _ h7]

/-- C3 witness: the undeclared key `color` is discarded. -/
theorem productIn_extra_fields_ignored_witness :
    validateProductIn [("color", JVal.str "red")] = validateProductIn [] :=
  productIn_extra_fields_ignored [] "color" (JVal.str "red") (by decide)

/-- C4: a checkout body whose `quantity` is an integer outside
`[1, 10]` fails `CheckoutIn` validation (it is rejected, not clamped),
so the endpoint answers with a validation error before any store
access: the store is untouched and the access trace is empty. -/
theorem checkout_quantity_out_of_range_rejected
    (raw : List (String × JVal)) (db : Option DbState) (q : Rat)
    (hq : lookupField raw "quantity" = some (JVal.num q))
    (hden : q.den = 1)
    (hout : q.num < 1 ∨ 10 < q.num) :
    (∃ e, validateCheckoutIn raw = Except.error e) ∧
    (∃ e, checkoutEndpoint raw db = (CheckoutResp.validationError e, db, [])) := by
  have hnot : ¬(1 ≤ q.num ∧ q.num ≤ 10) := by omega
  have hvq : vQuantity raw = Except.error "quantity: Input should be between 1 and 10" := by
    simp [vQuantity, hq, hden, hnot]
  have hval : ∃ e, validateCheckoutIn raw = Except.error e := by
    cases hps : vReqStr raw "product_id" with
    | error e => exact ⟨e, by simp [validateCheckoutIn, hps]⟩
    | ok pid =>
      exact ⟨"quantity: Input should be between 1 and 10",
        by simp [validateCheckoutIn, hps, hvq]⟩
  obtain ⟨e, he⟩ := hval
  exact ⟨⟨e, he⟩, ⟨e, by simp [checkoutEndpoint, he]⟩⟩

/-- C4 witness: quantity 11 is rejected with no store access. -/
theorem checkout_quantity_out_of_range_rejected_witness :
    (∃ e, validateCheckoutIn
        [("product_id", JVal.str "x"), ("quantity", JVal.num 11)] = Except.error e) ∧
    (∃ e, checkoutEndpoint [("product_id", JVal.str "x"), ("quantity", JVal.num 11)] none =
        (CheckoutResp.validationError e, none, [])) :=
  checkout_quantity_out_of_range_rejected _ none 11 rfl (by decide) (Or.inr (by decide))

/-- C5: `list_products` returns the store's product documents in store
order, capped at 100, the empty list when no products exist, and each
output record keeps the stored payload fields while exposing the
identifier as the string `id` and carrying no `_id`, `created_at` or
`updated_at` field (the `ProductOut` shape has none). -/
theorem list_products_spec (st : DbState) :
    list_products st = (st.products.take 100).map productOutOfDoc ∧
    (list_products st).length ≤ 100 ∧
    (st.products = [] → list_products st = []) ∧
    (∀ d : ProductDoc,
      (productOutOfDoc d).id = d._id.getD "" ∧
      (productOutOfDoc d).title = d.title ∧
      (productOutOfDoc d).description = d.description ∧
      (productOutOfDoc d).price = d.price ∧
      (productOutOfDoc d).category = d.category ∧
      (productOutOfDoc d).in_stock = d.in_stock ∧
      (productOutOfDoc d).image_urls = d.image_urls ∧
      (productOutOfDoc d).video_url = d.video_url) := by
  refine ⟨rfl, ?_, ?_, ?_⟩
  · simp only [list_products, get_documents, List.length_map, List.length_take]
    omega
  · intro h
    simp [list_products, get_documents, h]
  · intro d
    refine ⟨?_, rfl, rfl, rfl, rfl, rfl, rfl, rfl⟩
    cases h : d._id with
    | none => simp [productOutOfDoc, h]
    | some s =>
      by_cases hs : s = "" <;> simp [productOutOfDoc, h, hs]

/-- C5 witness: the empty store lists no products. -/
theorem list_products_spec_witness : list_products emptyStore = [] :=
  (list_products_spec emptyStore).2.2.1 rfl

/-- C6: a product body whose `price` is strictly negative fails
`ProductIn` validation, so `create_product` answers with a validation
error and the store state is returned unchanged: nothing is
persisted. -/
theorem create_product_negative_price_rejected
    (raw : List (String × JVal)) (st : DbState) (q : Rat)
    (hp : lookupField raw "price" = some (JVal.num q))
    (hneg : q < 0) :
    (∃ e, validateProductIn raw = Except.error e) ∧
    (∃ e, create_product raw st = (ProductResp.validationError e, st)) := by
  have hvp : vPrice raw = Except.error "price: Input should be greater than or equal to 0" := by
    simp [vPrice, hp, hneg]
  have hval : ∃ e, validateProductIn raw = Except.error e := by
    cases h1 : vReqStr raw "title" with
    | error e => exact ⟨e, by simp [validateProductIn, h1]⟩
    | ok t =>
      cases h2 : vOptStr raw "description" with
      | error e => exact ⟨e, by simp [validateProductIn, h1, h2]⟩
      | ok dsc =>
        exact ⟨"price: Input should be greater than or equal to 0",
          by simp [validateProductIn, h1, h2, hvp]⟩
  obtain ⟨e, he⟩ := hval
  exact ⟨⟨e, he⟩, ⟨e, by simp [create_product, he]⟩⟩

/-- C6 witness: price −1 is rejected and the store keeps no new
document. -/
theorem create_product_negative_price_rejected_witness :
    (∃ e, validateProductIn
        [("title", JVal.str "Chair"), ("price", JVal.num (-1))] = Except.error e) ∧
    (∃ e, create_product [("title", JVal.str "Chair"), ("price", JVal.num (-1))] emptyStore =
        (ProductResp.validationError e, emptyStore)) :=
  create_product_negative_price_rejected _ emptyStore (-1) rfl (by decide)

/-- C7: a checkout request whose `product_id` is a well-formed store
identifier matching no stored product document gets a 404 answer; the
only store access is the lookup and the store, in particular the order
collection, is unchanged. -/
theorem checkout_unknown_product_not_found
    (st : DbState) (p : CheckoutIn)
    (hpid : isValidOidString p.product_id = true)
    (hfind : st.products.find? (fun d => d._id == some (oidNorm p.product_id)) = none) :
    checkout (some st) p =
      (CheckoutResp.httpError 404 "Product not found", some st, [StoreOp.findOne]) := by
  simp [checkout, hpid, hfind]

/-- C7 witness: a validly-shaped but unused identifier against the
empty store. -/
theorem checkout_unknown_product_not_found_witness :
    checkout (some emptyStore) ⟨oidA, 2⟩ =
      (CheckoutResp.httpError 404 "Product not found", some emptyStore, [StoreOp.findOne]) :=
  checkout_unknown_product_not_found emptyStore ⟨oidA, 2⟩ (by decide) rfl

/-- C8: the diagnostics handler is a total function over every probe
state — module absent, import failing, available but uninitialized,
connected, connected with a failing collection listing — always
producing the six-field response; the collection list is capped at the
first 10 names, caught error messages are truncated to 50 characters,
and the two environment variables are reported by presence only, their
values never appearing in the response. -/
theorem test_database_never_raises_and_bounds
    (imp : DbImport) (envUrl envName : Option String) :
    (test_database imp envUrl envName).backend = "✅ Running" ∧
    (test_database imp envUrl envName).collections.length ≤ 10 ∧
    (∀ db cols, db.listCollectionsResult = Except.ok cols →
        (test_database (DbImport.imported (some db)) envUrl envName).collections =
          cols.take 10) ∧
    (∀ e, (test_database (DbImport.otherError e) envUrl envName).database =
        "❌ Error: " ++ strTake e 50) ∧
    (∀ db e, db.listCollectionsResult = Except.error e →
        (test_database (DbImport.imported (some db)) envUrl envName).database =
          "⚠️  Connected but Error: " ++ strTake e 50) ∧
    (∀ e, (strTake e 50).data.length ≤ 50) ∧
    (test_database imp envUrl envName).database_url =
      some (if envTruthy envUrl then "✅ Set" else "❌ Not Set") ∧
    (test_database imp envUrl envName).database_name =
      some (if envTruthy envName then "✅ Set" else "❌ Not Set") := by
  refine ⟨?_, ?_, ?_, ?_, ?_, ?_, rfl, rfl⟩
  · cases imp with
    | importError => rfl
    | otherError e => rfl
    | imported db =>
      cases db with
      | none => rfl
      | some d =>
        cases h : d.listCollectionsResult with
        | ok cols => simp [test_database, h]
        | error e => simp [test_database, h]
  · cases imp with
    | importError => simp [test_database]
    | otherError e => simp [test_database]
    | imported db =>
      cases db with
      | none => simp [test_database]
      | some d =>
        cases h : d.listCollectionsResult with
        | ok cols =>
          simp only [test_database, h, List.length_take]
          omega
        | error e => simp [test_database, h]
  · intro d cols h
    simp [test_database, h]
  · intro e
    rfl
  · intro d e h
    simp [test_database, h]
  · intro e
    simp only [strTake, List.length_take]
    omega

/-- C9 counterexample: a checkout body whose `product_id` is the empty
string passes `CheckoutIn` validation — the model requires only that the
field be a string, with no non-empty constraint. -/
theorem checkoutIn_empty_product_id_passes_validation :
    validateCheckoutIn [("product_id", JVal.str "")] = Except.ok ⟨"", 1⟩ := rfl

/-- C9 as amended: the empty `product_id` is not rejected by input
validation; it is the checkout handler that rejects it, with a 400
bad-request error, because the empty string is not a syntactically
valid store identifier — no store access happens and no order is
created. -/
theorem checkout_empty_product_id_bad_request (st : DbState) :
    validateCheckoutIn [("product_id", JVal.str "")] = Except.ok ⟨"", 1⟩ ∧
    checkoutEndpoint [("product_id", JVal.str "")] (some st) =
      (CheckoutResp.httpError 400 "Invalid product_id", some st, []) :=
  ⟨rfl, rfl⟩

/-- C10: a checkout body that omits `quantity` entirely passes
validation with quantity defaulting to 1, and a checkout that then
succeeds appends exactly one order with quantity 1. -/
theorem checkout_missing_quantity_defaults_to_one
    (raw : List (String × JVal)) (pid : String) (st : DbState)
    (hq : lookupField raw "quantity" = none)
    (hpid : lookupField raw "product_id" = some (JVal.str pid)) :
    validateCheckoutIn raw = Except.ok ⟨pid, 1⟩ ∧
    (isValidOidString pid = true →
     (st.products.find? (fun d => d._id == some (oidNorm pid))).isSome = true →
     checkoutEndpoint raw (some st) =
       (CheckoutResp.success ⟨"success", "Payment processed (demo)", st.nextOrderId⟩,
        some { st with orders := st.orders ++ [⟨pid, 1, "paid"⟩] },
        [StoreOp.findOne, StoreOp.insertOne])) := by
  have hval : validateCheckoutIn raw = Except.ok ⟨pid, 1⟩ := by
    simp [validateCheckoutIn, vReqStr, vQuantity, hq, hpid]
  refine ⟨hval, fun hv hf => ?_⟩
  obtain ⟨d, hd⟩ := Option.isSome_iff_exists.mp hf
  simp [checkoutEndpoint, hval, checkout, hv, hd]

/-- C10 witness: a body holding only a `product_id` validates with
quantity 1 and checks out into an order of quantity 1. -/
theorem checkout_missing_quantity_defaults_to_one_witness :
    validateCheckoutIn [("product_id", JVal.str oidA)] = Except.ok ⟨oidA, 1⟩ ∧
    checkoutEndpoint [("product_id", JVal.str oidA)] (some sampleStore) =
      (CheckoutResp.success ⟨"success", "Payment processed (demo)", sampleStore.nextOrderId⟩,
       some { sampleStore with orders := sampleStore.orders ++ [⟨oidA, 1, "paid"⟩] },
       [StoreOp.findOne, StoreOp.insertOne]) :=
  ⟨(checkout_missing_quantity_defaults_to_one [("product_id", JVal.str oidA)]
      oidA sampleStore rfl rfl).1,
   (checkout_missing_quantity_defaults_to_one [("product_id", JVal.str oidA)]
      oidA sampleStore rfl rfl).2 (by decide) (by decide)⟩

/-- C8 witness: a connected store with three collections lists all of
them, and with the module absent the environment report still fills the
six fields. -/
theorem test_database_never_raises_and_bounds_witness :
    (test_database
        (DbImport.imported (some ⟨some "shop", Except.ok ["a", "b", "c"]⟩))
        (some "mongodb://localhost") none).collections = ["a", "b", "c"] ∧
    (test_database DbImport.importError none none).database_url = some "❌ Not Set" :=
  ⟨((test_database_never_raises_and_bounds
        (DbImport.imported (some ⟨some "shop", Except.ok ["a", "b", "c"]⟩))
        (some "mongodb://localhost") none).2.2.1
      ⟨some "shop", Except.ok ["a", "b", "c"]⟩ ["a", "b", "c"] rfl).trans rfl,
   ((test_database_never_raises_and_bounds
        DbImport.importError none none).2.2.2.2.2.2.1).trans rfl⟩

end Backend
